import Mathlib

/-!
Verification of the lightning wallet client module
(src/operations/lightning.rs of grunch/bitmask-core).

The module is a thin HTTP client for an LNDHub-style custodial wallet
service.  Every operation performs at most one transport call, decodes the
JSON response body with serde, and returns the decoded value or propagates
the error.  We embed:

  - a JSON value model and a JSON text parser, standing for serde_json;
  - the serde-derived decoders of each response type, with serde's default
    behaviour: unknown fields ignored, duplicate known fields rejected,
    Option fields treated as absent-or-null, untagged enums tried in
    declaration order;
  - the satoshi-to-BTC amount conversion performed with 32-bit binary
    floating point, modelled exactly over explicit integer fractions
    (round to nearest, ties to even, on the 24-bit significand grid),
    together with Rust's Display formatting of floats, which prints the
    shortest decimal string that parses back to the same f32 value;
  - the bech32 layer of the BOLT11 invoice decoder, modelled from the
    specification because the lightning_invoice crate is an external
    dependency whose sources are not part of this repository;
  - the seven public operations, parameterised by a transport oracle that
    stands for the util get/post_json_auth primitives, which are likewise
    outside this module.
-/

set_option maxRecDepth 40000

namespace Lndhub

/-- JSON values, as produced by serde_json.  Integer number tokens and
fraction/exponent number tokens are kept distinct, as serde_json does
(a float token can never deserialize into a u32 field). -/
inductive Json where
  | null : Json
  | bool (b : Bool) : Json
  | num (n : ℤ) : Json
  | fnum (num den : ℤ) : Json
  | str (s : String) : Json
  | arr (elems : List Json) : Json
  | obj (fields : List (String × Json)) : Json

/-- Whitespace accepted by the JSON grammar. -/
def isJsonWs (c : Char) : Bool :=
  c == ' ' || c == '\n' || c == '\t' || c == '\r'

/-- Skip leading JSON whitespace. -/
def skipWs (cs : List Char) : List Char :=
  cs.dropWhile isJsonWs

/-- Parse the remainder of a JSON string literal, the opening quote already
consumed.  Supports the simple escapes; \u escapes are outside the modelled
scope (no response body in this development uses them). -/
def parseStrAux : List Char → List Char → Option (String × List Char)
  | [], _ => none
  | '"' :: r, acc => some (String.mk acc.reverse, r)
  | '\\' :: c :: r, acc =>
    if c == '"' then parseStrAux r ('"' :: acc)
    else if c == '\\' then parseStrAux r ('\\' :: acc)
    else if c == '/' then parseStrAux r ('/' :: acc)
    else if c == 'n' then parseStrAux r ('\n' :: acc)
    else if c == 't' then parseStrAux r ('\t' :: acc)
    else if c == 'r' then parseStrAux r ('\r' :: acc)
    else if c == 'b' then parseStrAux r (Char.ofNat 8 :: acc)
    else if c == 'f' then parseStrAux r (Char.ofNat 12 :: acc)
    else none
  | ['\\'], _ => none
  | c :: r, acc => parseStrAux r (c :: acc)

/-- Numeric value of a list of decimal digit characters. -/
def digitsVal (ds : List Char) : ℕ :=
  ds.foldl (fun a c => 10 * a + (c.toNat - 48)) 0

/-- Parse the optional exponent part of a number token and build the float
token; `ip` is the integer scale of the mantissa denominator. -/
def parseNumExp (neg : Bool) (mnum mden : ℤ) : List Char → Option (Json × List Char)
  | c :: r =>
    if c == 'e' || c == 'E' then
      let (esign, r1) : Bool × List Char :=
        match r with
        | '+' :: t => (false, t)
        | '-' :: t => (true, t)
        | _ => (false, r)
      let ed := r1.takeWhile Char.isDigit
      let r2 := r1.dropWhile Char.isDigit
      if ed.isEmpty then none
      else
        let e : ℕ := digitsVal ed
        let (n2, d2) : ℤ × ℤ :=
          if esign then (mnum, mden * (10 : ℤ) ^ e) else (mnum * (10 : ℤ) ^ e, mden)
        some (Json.fnum (if neg then -n2 else n2) d2, r2)
    else some (Json.fnum (if neg then -mnum else mnum) mden, c :: r)
  | [] => some (Json.fnum (if neg then -mnum else mnum) mden, [])

/-- Parse a JSON number token.  Integer tokens become `Json.num`, tokens with
a fraction or exponent become `Json.fnum`; leading zeros are rejected as in
the JSON grammar. -/
def parseNum (cs : List Char) : Option (Json × List Char) :=
  let (neg, cs1) : Bool × List Char :=
    match cs with
    | '-' :: r => (true, r)
    | _ => (false, cs)
  let ip := cs1.takeWhile Char.isDigit
  let r1 := cs1.dropWhile Char.isDigit
  if ip.isEmpty then none
  else if 2 ≤ ip.length && ip.take 1 == ['0'] then none
  else
    let iv : ℤ := (digitsVal ip : ℤ)
    match r1 with
    | '.' :: r2 =>
      let fp := r2.takeWhile Char.isDigit
      let r3 := r2.dropWhile Char.isDigit
      if fp.isEmpty then none
      else
        parseNumExp neg (iv * (10 : ℤ) ^ fp.length + (digitsVal fp : ℤ)) ((10 : ℤ) ^ fp.length) r3
    | c :: r2 =>
      if c == 'e' || c == 'E' then parseNumExp neg iv 1 (c :: r2)
      else some (Json.num (if neg then -iv else iv), c :: r2)
    | [] => some (Json.num (if neg then -iv else iv), [])

/-- Parser modes: a single value, the elements of an array after the opening
bracket, or the members of an object after the opening brace. -/
inductive PMode where
  | val : PMode
  | elems (acc : List Json) : PMode
  | members (acc : List (String × Json)) : PMode

/-- Fuel-indexed JSON parser (the fuel dominates the nesting depth, which is
bounded by the input length). -/
def parseF : ℕ → PMode → List Char → Option (Json × List Char)
  | 0, _, _ => none
  | f + 1, PMode.val, cs =>
    match skipWs cs with
    | [] => none
    | '"' :: r =>
      match parseStrAux r [] with
      | some (s, r2) => some (Json.str s, r2)
      | none => none
    | 'n' :: 'u' :: 'l' :: 'l' :: r => some (Json.null, r)
    | 't' :: 'r' :: 'u' :: 'e' :: r => some (Json.bool true, r)
    | 'f' :: 'a' :: 'l' :: 's' :: 'e' :: r => some (Json.bool false, r)
    | '[' :: r =>
      (match skipWs r with
      | ']' :: r2 => some (Json.arr [], r2)
      | _ => parseF f (PMode.elems []) r)
    | '\x7b' :: r =>
      (match skipWs r with
      | '\x7d' :: r2 => some (Json.obj [], r2)
      | _ => parseF f (PMode.members []) r)
    | c :: r =>
      if c == '-' || c.isDigit then parseNum (c :: r) else none
  | f + 1, PMode.elems acc, cs =>
    match parseF f PMode.val cs with
    | none => none
    | some (j, r) =>
      match skipWs r with
      | ',' :: r2 => parseF f (PMode.elems (j :: acc)) r2
      | ']' :: r2 => some (Json.arr (j :: acc).reverse, r2)
      | _ => none
  | f + 1, PMode.members acc, cs =>
    match skipWs cs with
    | '"' :: r =>
      (match parseStrAux r [] with
      | none => none
      | some (key, r2) =>
        match skipWs r2 with
        | ':' :: r3 =>
          (match parseF f PMode.val r3 with
          | none => none
          | some (j, r4) =>
            match skipWs r4 with
            | ',' :: r5 => parseF f (PMode.members ((key, j) :: acc)) r5
            | '\x7d' :: r5 => some (Json.obj ((key, j) :: acc).reverse, r5)
            | _ => none)
        | _ => none)
    | _ => none

/-- Parse a complete JSON document: one value, possibly surrounded by
whitespace, consuming the whole input. -/
def parseJson (s : String) : Option Json :=
  let cs := s.toList
  match parseF (cs.length + 2) PMode.val cs with
  | some (j, rest) => if (skipWs rest).isEmpty then some j else none
  | none => none

/-- First field of the given name in a JSON object, as serde's map visitor
sees it. -/
def lookupField : List (String × Json) → String → Option Json
  | [], _ => none
  | p :: ps, n => if p.1 = n then some p.2 else lookupField ps n

/-- How often a field name occurs in an object body. -/
def countName (fs : List (String × Json)) (n : String) : ℕ :=
  (fs.filter (fun p => p.1 == n)).length

/-- serde's derived deserializers fail with a duplicate-field error when a
known field occurs twice; unknown fields may repeat freely. -/
def dupKnown (known : List String) (fs : List (String × Json)) : Bool :=
  known.any (fun n => decide (2 ≤ countName fs n))

/-- Required `String` field. -/
def getStr (fs : List (String × Json)) (n : String) : Option String :=
  match lookupField fs n with
  | some (Json.str s) => some s
  | _ => none

/-- Required `u32` field: only an in-range integer token is accepted. -/
def getU32 (fs : List (String × Json)) (n : String) : Option ℕ :=
  match lookupField fs n with
  | some (Json.num i) => if 0 ≤ i && i < 4294967296 then some i.toNat else none
  | _ => none

/-- Required `u64` field. -/
def getU64 (fs : List (String × Json)) (n : String) : Option ℕ :=
  match lookupField fs n with
  | some (Json.num i) => if 0 ≤ i && i < 18446744073709551616 then some i.toNat else none
  | _ => none

/-- Required `bool` field. -/
def getBool (fs : List (String × Json)) (n : String) : Option Bool :=
  match lookupField fs n with
  | some (Json.bool b) => some b
  | _ => none

/-- `Option<String>` field: absent or null is `none`, a string is `some`,
anything else is a type error. -/
def getOptStr (fs : List (String × Json)) (n : String) : Option (Option String) :=
  match lookupField fs n with
  | none => some none
  | some Json.null => some none
  | some (Json.str s) => some (some s)
  | some _ => none

/-- Amount and currency (struct Money). -/
structure Money where
  value : String
  currency : String
deriving DecidableEq

/-- Field names of Money. -/
def moneyFields : List String := ["value", "currency"]

/-- serde-derived decoder for Money. -/
def decodeMoney : Json → Option Money
  | Json.obj fs =>
    if dupKnown moneyFields fs then none
    else
      match getStr fs "value", getStr fs "currency" with
      | some v, some c => some ⟨v, c⟩
      | _, _ => none
  | _ => none

/-- Required `Money` field. -/
def getMoney (fs : List (String × Json)) (n : String) : Option Money :=
  match lookupField fs n with
  | some j => decodeMoney j
  | none => none

/-- `Option<Money>` field. -/
def getOptMoney (fs : List (String × Json)) (n : String) : Option (Option Money) :=
  match lookupField fs n with
  | none => some none
  | some Json.null => some none
  | some j => (decodeMoney j).map some

/-- Lightning wallet credentials (struct Credentials). -/
structure Credentials where
  username : String
  password : String
deriving DecidableEq

/-- serde serialization of Credentials, fields in declaration order. -/
def credsJson (c : Credentials) : Json :=
  Json.obj [("username", Json.str c.username), ("password", Json.str c.password)]

/-- Wallet creation response: serde untagged enum with two struct variants
distinguished only by which field is present. -/
inductive CreateWalletResponse where
  | Username (username : String) : CreateWalletResponse
  | Error (error : String) : CreateWalletResponse
deriving DecidableEq

/-- Field names appearing across the CreateWalletResponse variants. -/
def createWalletFields : List String := ["username", "error"]

/-- The Username variant of the untagged enum, as serde tries it: a struct
with the single known field `username`, unknown fields ignored. -/
def decodeCWUsername : Json → Option String
  | Json.obj fs =>
    if dupKnown ["username"] fs then none else getStr fs "username"
  | _ => none

/-- The Error variant of the untagged enum. -/
def decodeCWError : Json → Option String
  | Json.obj fs =>
    if dupKnown ["error"] fs then none else getStr fs "error"
  | _ => none

/-- serde(untagged) deserialization: variants are attempted in declaration
order and the first that succeeds wins. -/
def decodeCreateWalletResponse (j : Json) : Option CreateWalletResponse :=
  match decodeCWUsername j with
  | some u => some (CreateWalletResponse.Username u)
  | none =>
    match decodeCWError j with
    | some e => some (CreateWalletResponse.Error e)
    | none => none

/-- Lightning wallet tokens (struct Tokens). -/
structure Tokens where
  refresh : String
  token : String
deriving DecidableEq

/-- Field names of Tokens. -/
def tokensFields : List String := ["refresh", "token"]

/-- serde-derived decoder for Tokens. -/
def decodeTokens : Json → Option Tokens
  | Json.obj fs =>
    if dupKnown tokensFields fs then none
    else
      match getStr fs "refresh", getStr fs "token" with
      | some r, some t => some ⟨r, t⟩
      | _, _ => none
  | _ => none

/-- Add Invoice response (struct AddInvoiceResponse). -/
structure AddInvoiceResponse where
  req_id : String
  uid : ℕ
  payment_request : Option String
  meta : Option String
  metadata : Option String
  amount : Money
  rate : Option String
  currency : String
  target_account_currency : Option String
  account_id : Option String
  error : Option String
  fees : Option String
deriving DecidableEq

/-- Field names of AddInvoiceResponse. -/
def addInvoiceFields : List String :=
  ["req_id", "uid", "payment_request", "meta", "metadata", "amount", "rate",
   "currency", "target_account_currency", "account_id", "error", "fees"]

/-- serde-derived decoder for AddInvoiceResponse. -/
def decodeAddInvoiceResponse : Json → Option AddInvoiceResponse
  | Json.obj fs =>
    if dupKnown addInvoiceFields fs then none
    else
      match getStr fs "req_id", getU32 fs "uid", getMoney fs "amount", getStr fs "currency" with
      | some req_id, some uid, some amount, some currency => do
        let payment_request ← getOptStr fs "payment_request"
        let meta ← getOptStr fs "meta"
        let metadata ← getOptStr fs "metadata"
        let rate ← getOptStr fs "rate"
        let target_account_currency ← getOptStr fs "target_account_currency"
        let account_id ← getOptStr fs "account_id"
        let error ← getOptStr fs "error"
        let fees ← getOptStr fs "fees"
        some (AddInvoiceResponse.mk req_id uid payment_request meta metadata amount
          rate currency target_account_currency account_id error fees)
      | _, _, _, _ => none
  | _ => none

/-- User account (struct Account). -/
structure Account where
  account_id : String
  balance : String
  currency : String
deriving DecidableEq

/-- Field names of Account. -/
def accountFields : List String := ["account_id", "balance", "currency"]

/-- serde-derived decoder for Account. -/
def decodeAccount : Json → Option Account
  | Json.obj fs =>
    if dupKnown accountFields fs then none
    else
      match getStr fs "account_id", getStr fs "balance", getStr fs "currency" with
      | some a, some b, some c => some ⟨a, b, c⟩
      | _, _, _ => none
  | _ => none

/-- The accounts HashMap: every member value decodes as an Account.  The
list keeps the body order; HashMap iteration order is arbitrary, which the
spec reflects by guaranteeing no order on the flattened list. -/
def decodeAccountsMap : Json → Option (List (String × Account))
  | Json.obj fs => fs.mapM (fun p => (decodeAccount p.2).map (fun a => (p.1, a)))
  | _ => none

/-- User balance response (struct BalancesResponse). -/
structure BalancesResponse where
  uid : ℕ
  accounts : List (String × Account)
  error : Option String
deriving DecidableEq

/-- Field names of BalancesResponse. -/
def balancesFields : List String := ["uid", "accounts", "error"]

/-- serde-derived decoder for BalancesResponse. -/
def decodeBalancesResponse : Json → Option BalancesResponse
  | Json.obj fs =>
    if dupKnown balancesFields fs then none
    else
      match getU32 fs "uid",
        (match lookupField fs "accounts" with
         | some j => decodeAccountsMap j
         | none => none),
        getOptStr fs "error" with
      | some uid, some accounts, some error => some ⟨uid, accounts, error⟩
      | _, _, _ => none
  | _ => none

/-- Pay Invoice request (struct PayInvoiceRequest). -/
structure PayInvoiceRequest where
  payment_request : String
deriving DecidableEq

/-- serde serialization of PayInvoiceRequest. -/
def payInvoiceRequestJson (r : PayInvoiceRequest) : Json :=
  Json.obj [("payment_request", Json.str r.payment_request)]

/-- Lightning transaction (struct Transaction). -/
structure Transaction where
  txid : String
  fee_txid : Option String
  outbound_txid : Option String
  inbound_txid : Option String
  created_at : ℕ
  outbound_amount : String
  inbound_amount : String
  outbound_account_id : String
  inbound_account_id : String
  outbound_uid : ℕ
  inbound_uid : ℕ
  outbound_currency : String
  inbound_currency : String
  exchange_rate : String
  tx_type : String
  fees : String
  reference : Option String
deriving DecidableEq

/-- Field names of Transaction. -/
def transactionFields : List String :=
  ["txid", "fee_txid", "outbound_txid", "inbound_txid", "created_at",
   "outbound_amount", "inbound_amount", "outbound_account_id",
   "inbound_account_id", "outbound_uid", "inbound_uid", "outbound_currency",
   "inbound_currency", "exchange_rate", "tx_type", "fees", "reference"]

/-- serde-derived decoder for Transaction. -/
def decodeTransaction : Json → Option Transaction
  | Json.obj fs =>
    if dupKnown transactionFields fs then none
    else
      match getStr fs "txid", getU64 fs "created_at", getU32 fs "outbound_uid",
        getU32 fs "inbound_uid" with
      | some txid, some created_at, some outbound_uid, some inbound_uid => do
        let fee_txid ← getOptStr fs "fee_txid"
        let outbound_txid ← getOptStr fs "outbound_txid"
        let inbound_txid ← getOptStr fs "inbound_txid"
        let outbound_amount ← getStr fs "outbound_amount"
        let inbound_amount ← getStr fs "inbound_amount"
        let outbound_account_id ← getStr fs "outbound_account_id"
        let inbound_account_id ← getStr fs "inbound_account_id"
        let outbound_currency ← getStr fs "outbound_currency"
        let inbound_currency ← getStr fs "inbound_currency"
        let exchange_rate ← getStr fs "exchange_rate"
        let tx_type ← getStr fs "tx_type"
        let fees ← getStr fs "fees"
        let reference ← getOptStr fs "reference"
        some (Transaction.mk txid fee_txid outbound_txid inbound_txid created_at
          outbound_amount inbound_amount outbound_account_id inbound_account_id
          outbound_uid inbound_uid outbound_currency inbound_currency
          exchange_rate tx_type fees reference)
      | _, _, _, _ => none
  | _ => none

/-- A gettxs body is a JSON array of transactions. -/
def decodeTxList : Json → Option (List Transaction)
  | Json.arr es => es.mapM decodeTransaction
  | _ => none

/-- Pay invoice response (struct PayInvoiceResponse). -/
structure PayInvoiceResponse where
  payment_hash : String
  uid : ℕ
  success : Bool
  currency : String
  payment_request : Option String
  amount : Option Money
  fees : Option Money
  error : Option String
  payment_preimage : Option String
  destination : Option String
  description : Option String
deriving DecidableEq

/-- Field names of PayInvoiceResponse. -/
def payInvoiceFields : List String :=
  ["payment_hash", "uid", "success", "currency", "payment_request", "amount",
   "fees", "error", "payment_preimage", "destination", "description"]

/-- serde-derived decoder for PayInvoiceResponse. -/
def decodePayInvoiceResponse : Json → Option PayInvoiceResponse
  | Json.obj fs =>
    if dupKnown payInvoiceFields fs then none
    else
      match getStr fs "payment_hash", getU32 fs "uid", getBool fs "success",
        getStr fs "currency" with
      | some payment_hash, some uid, some success, some currency => do
        let payment_request ← getOptStr fs "payment_request"
        let amount ← getOptMoney fs "amount"
        let fees ← getOptMoney fs "fees"
        let error ← getOptStr fs "error"
        let payment_preimage ← getOptStr fs "payment_preimage"
        let destination ← getOptStr fs "destination"
        let description ← getOptStr fs "description"
        some (PayInvoiceResponse.mk payment_hash uid success currency
          payment_request amount fees error payment_preimage destination description)
      | _, _, _, _ => none
  | _ => none

/-- An exact rational with positive denominator, kept unreduced so that all
arithmetic stays within kernel-computable integer operations.  Used to model
binary floating-point values and decimal strings exactly. -/
structure Frac where
  num : ℤ
  den : ℤ
deriving DecidableEq

/-- Value comparison of fractions (denominators positive by construction). -/
def Frac.ltb (a b : Frac) : Bool := decide (a.num * b.den < b.num * a.den)

/-- Value order, non-strict. -/
def Frac.leb (a b : Frac) : Bool := decide (a.num * b.den ≤ b.num * a.den)

/-- Value equality of fractions. -/
def Frac.eqv (a b : Frac) : Bool := a.num * b.den == b.num * a.den

/-- Exact difference. -/
def Frac.sub (a b : Frac) : Frac := ⟨a.num * b.den - b.num * a.den, a.den * b.den⟩

/-- Exact quotient (both arguments positive in every use). -/
def Frac.div (a b : Frac) : Frac := ⟨a.num * b.den, a.den * b.num⟩

/-- Absolute value. -/
def Frac.abs (a : Frac) : Frac := ⟨|a.num|, a.den⟩

/-- Floor of a fraction with positive denominator. -/
def Frac.floor (a : Frac) : ℤ := a.num.fdiv a.den

/-- The power 2^e as an exact fraction, for any integer e. -/
def pow2 (e : ℤ) : Frac :=
  if 0 ≤ e then ⟨(2 : ℤ) ^ e.toNat, 1⟩ else ⟨1, (2 : ℤ) ^ (-e).toNat⟩

/-- The power 10^k as an exact fraction, for any integer k. -/
def pow10 (k : ℤ) : Frac :=
  if 0 ≤ k then ⟨(10 : ℤ) ^ k.toNat, 1⟩ else ⟨1, (10 : ℤ) ^ (-k).toNat⟩

/-- Number of binary digits of a natural number (fuel-based so that the
kernel can evaluate it; 0 has zero digits). -/
def bitLenAux : ℕ → ℕ → ℕ
  | 0, _ => 0
  | f + 1, n => if n = 0 then 0 else bitLenAux f (n / 2) + 1

/-- Number of binary digits. -/
def bitLen (n : ℕ) : ℕ := bitLenAux 400 n

/-- Number of decimal digits of a natural number (1 for 0). -/
def digLenAux : ℕ → ℕ → ℕ
  | 0, _ => 0
  | f + 1, n => if n < 10 then 1 else digLenAux f (n / 10) + 1

/-- Number of decimal digits. -/
def digLen (n : ℕ) : ℕ := digLenAux 400 n

/-- The unique exponent e with 2^23 ≤ q / 2^e < 2^24 for a positive q: the
binary exponent of the leading significand bit of an f32 in the normal
range, computed from the bit lengths of numerator and denominator. -/
def f32exp (q : Frac) : ℤ :=
  let k : ℤ := (bitLen q.num.natAbs : ℤ) - (bitLen q.den.natAbs : ℤ)
  if q.ltb (pow2 k) then k - 24 else k - 23

/-- Round a positive rational to the nearest f32 value (round to nearest,
ties to even, on the 24-bit significand grid).  This models IEEE-754
binary32 arithmetic results in the normal range, which covers every value
arising in the satoshi-to-BTC conversion; zero maps to zero. -/
def roundF32 (q : Frac) : Frac :=
  if q.num ≤ 0 then ⟨0, 1⟩
  else
    let e := f32exp q
    let s := q.div (pow2 e)
    let m0 : ℤ := s.floor
    let r : Frac := s.sub ⟨m0, 1⟩
    let m : ℤ :=
      if r.ltb ⟨1, 2⟩ then m0
      else if Frac.ltb ⟨1, 2⟩ r then m0 + 1
      else if m0 % 2 = 0 then m0 else m0 + 1
    match pow2 e with
    | ⟨pn, pd⟩ => ⟨m * pn, pd⟩

/-- Correctly rounded f32 division of two f32 values. -/
def f32div (a b : Frac) : Frac := roundF32 (a.div b)

/-- Does the decimal d * 10^k parse back (with round-to-nearest) to the f32
value v?  This is the round-trip condition Rust's shortest-digit float
formatting is defined by. -/
def rtOK (v : Frac) (d : ℕ) (k : ℤ) : Bool :=
  (roundF32 (Frac.mk (d : ℤ) 1 |>.div (pow10 (-k)))).eqv v

/-- Floor of log10 of a positive fraction, from decimal digit counts. -/
def floorLog10 (q : Frac) : ℤ :=
  let a : ℤ := (digLen q.num.natAbs : ℤ)
  let b : ℤ := (digLen q.den.natAbs : ℤ)
  if q.ltb (pow10 (a - b)) then a - b - 1 else a - b

/-- All decimals with exactly s significant digits whose magnitude can be
close to v and which round back to v. -/
def rtCandidates (v : Frac) (s : ℕ) : List (ℕ × ℤ) :=
  let kb : ℤ := floorLog10 v - (s : ℤ)
  let ks : List ℤ := [kb - 1, kb, kb + 1, kb + 2]
  let ds : List ℕ := (List.range (10 ^ s - 10 ^ (s - 1))).map (fun i => 10 ^ (s - 1) + i)
  ((ds.map (fun d => ks.map (fun k => (d, k)))).flatten).filter (fun p => rtOK v p.1 p.2)

/-- Value of a candidate decimal. -/
def candVal (p : ℕ × ℤ) : Frac := Frac.mk (p.1 : ℤ) 1 |>.div (pow10 (-p.2))

/-- Among equally short candidates, the decimal closest in value to v wins
(Ryu-style shortest formatting; on every value in this development the
candidate at the minimal digit count is unique). -/
def pickBest (v : Frac) : List (ℕ × ℤ) → Option (ℕ × ℤ)
  | [] => none
  | p :: ps =>
    match pickBest v ps with
    | none => some p
    | some q =>
      if ((candVal p).sub v).abs.leb ((candVal q).sub v).abs then some p else some q

/-- Search the minimal number of significant digits whose decimals contain a
round-tripping representation of v. -/
def shortestRTAux : ℕ → ℕ → Frac → ℕ × ℤ
  | 0, _, _ => (0, 0)
  | f + 1, s, v =>
    match pickBest v (rtCandidates v s) with
    | some p => p
    | none => shortestRTAux f (s + 1) v

/-- Digits and exponent of the shortest round-tripping decimal for v
(an f32 value always has one within 9 significant digits). -/
def shortestRT (v : Frac) : ℕ × ℤ := shortestRTAux 12 1 v

/-- Positional decimal rendering of d * 10^k, as Rust's Display for floats
writes it: never scientific notation, no trailing ".0" on integers. -/
def fmtDigits (d : ℕ) (k : ℤ) : String :=
  let ds := Nat.toDigits 10 d
  if 0 ≤ k then String.mk (ds ++ List.replicate k.toNat '0')
  else
    let t := (-k).toNat
    if t < ds.length then
      String.mk (ds.take (ds.length - t) ++ ['.'] ++ ds.drop (ds.length - t))
    else String.mk (['0', '.'] ++ List.replicate (t - ds.length) '0' ++ ds)

/-- Rust's Display (to_string) for a finite non-negative f32 value: the
shortest decimal string that parses back to the same value, written in
positional notation. -/
def f32ToString (v : Frac) : String :=
  if v.num = 0 then "0"
  else fmtDigits (shortestRT v).1 (shortestRT v).2

/-- The amount string create_invoice embeds in the request URL:
amount as f32 / 100_000_000.0, then to_string.  The u32-to-f32 cast and the
division are both correctly rounded; the literal 100../000.0 is exactly
representable in f32. -/
def amtStr (amount : ℕ) : String :=
  f32ToString (f32div (roundF32 ⟨(amount : ℤ), 1⟩) (roundF32 ⟨100000000, 1⟩))

/-- Exact value of a plain decimal string (digits with at most one point),
used to state the round-trip property of the encoded amount. -/
def decStrToFrac (s : String) : Option Frac :=
  let cs := s.toList
  let a := cs.takeWhile (fun c => !(c == '.'))
  let r := cs.dropWhile (fun c => !(c == '.'))
  if a.isEmpty || a.any (fun c => !c.isDigit) then none
  else
    match r with
    | [] => some ⟨(digitsVal a : ℤ), 1⟩
    | _ :: b =>
      if b.isEmpty || b.any (fun c => !c.isDigit) then none
      else some ⟨(digitsVal a : ℤ) * (10 : ℤ) ^ b.length + (digitsVal b : ℤ), (10 : ℤ) ^ b.length⟩

/-- The bech32 data alphabet. -/
def bech32Charset : List Char := "qpzry9x8gf2tvdw0s3jn54khce6mua7l".toList

/-- Value of a bech32 data character, if any. -/
def bech32CharVal (c : Char) : Option ℕ :=
  bech32Charset.findIdx? (fun x => x == c)

/-- One step of the bech32 polymod checksum. -/
def bech32Step (chk v : ℕ) : ℕ :=
  let b := chk >>> 25
  let c0 := ((chk % 33554432) <<< 5) ^^^ v
  let c1 := if b % 2 = 1 then c0 ^^^ 0x3b6a57b2 else c0
  let c2 := if (b >>> 1) % 2 = 1 then c1 ^^^ 0x26508e6d else c1
  let c3 := if (b >>> 2) % 2 = 1 then c2 ^^^ 0x1ea119fa else c2
  let c4 := if (b >>> 3) % 2 = 1 then c3 ^^^ 0x3d4233dd else c3
  if (b >>> 4) % 2 = 1 then c4 ^^^ 0x2a1462b3 else c4

/-- The bech32 polymod over a list of 5-bit values. -/
def bech32Polymod (vs : List ℕ) : ℕ := vs.foldl bech32Step 1

/-- The human-readable part expanded into 5-bit values for checksumming. -/
def bech32HrpExpand (hrp : List Char) : List ℕ :=
  hrp.map (fun c => c.toNat >>> 5) ++ [0] ++ hrp.map (fun c => c.toNat % 32)

/-- bech32 checksum verification (BOLT11 uses the bech32 constant 1). -/
def bech32VerifyChecksum (hrp : List Char) (data : List ℕ) : Bool :=
  bech32Polymod (bech32HrpExpand hrp ++ data) == 1

/-- A decoded BOLT11 invoice: the human-readable part and the 5-bit data
payload without the checksum. -/
structure Invoice where
  hrp : String
  data : List ℕ
deriving DecidableEq

/-- Modelled from the spec: lightning_invoice's Invoice::from_str, the
conformant BOLT11 parser decode_invoice delegates to, is an external crate
and not part of this repository's sources.  Following the spec's contract
for it, the parse is a pure function of the string that fails on a missing
or bad human-readable prefix (it must start with "ln"), on characters
outside the bech32 data alphabet, on truncated data (fewer than the six
checksum characters), and on a bad bech32 checksum; tagged-field extraction
below the bech32 layer is outside the modelled scope. -/
def bolt11FromStr (s : String) : Option Invoice :=
  let cs := s.toList
  if cs.any Char.isUpper then none
  else
    match cs.reverse.findIdx? (fun c => c == '1') with
    | none => none
    | some j =>
      let i := cs.length - 1 - j
      let hrp := cs.take i
      let dataChars := cs.drop (i + 1)
      if hrp.isEmpty then none
      else if !(hrp.take 2 == ['l', 'n']) then none
      else if dataChars.length < 6 then none
      else
        match dataChars.mapM bech32CharVal with
        | none => none
        | some vals =>
          if bech32VerifyChecksum hrp vals then
            some (Invoice.mk (String.mk hrp) (vals.take (vals.length - 6)))
          else none

/-- Errors an operation can surface: a transport failure from the get /
post_json_auth collaborator, a serde_json decode failure, or a BOLT11 parse
failure, each propagated with the ? operator in the source. -/
inductive OpError where
  | transport : OpError
  | decode : OpError
  | invalidInvoice : OpError
deriving DecidableEq

/-- An HTTP request as issued through the util transport primitives. -/
inductive HttpReq where
  | get (url : String) (token : Option String) : HttpReq
  | postJsonAuth (url : String) (body : Json) (token : Option String) : HttpReq

/-- Modelled from the spec: the transport collaborator (util's get and
post_json_auth, outside this module).  An oracle maps a request to the
response body, or to `none` for a network failure or non-success status. -/
def Oracle : Type := HttpReq → Option String

/-- serde_json::from_str specialised to a decoder: parse the body text,
then decode the value; both failure modes are decode errors. -/
def serdeFromStr {α : Type} (dec : Json → Option α) (body : String) : Except OpError α :=
  match parseJson body with
  | none => Except.error OpError.decode
  | some j =>
    match dec j with
    | none => Except.error OpError.decode
    | some v => Except.ok v

/-- The request create_wallet posts: credentials to endpoint/create,
unauthenticated. -/
def create_wallet_req (endpoint username password : String) : HttpReq :=
  HttpReq.postJsonAuth (endpoint ++ "/create") (credsJson ⟨username, password⟩) none

/-- Creates a new lightning custodial wallet.  The endpoint argument stands
for the LNDHUB_ENDPOINT constant (data::constants, outside this module). -/
def create_wallet (o : Oracle) (endpoint username password : String) :
    HttpReq × Except OpError CreateWalletResponse :=
  (create_wallet_req endpoint username password,
   match o (create_wallet_req endpoint username password) with
   | none => Except.error OpError.transport
   | some response => serdeFromStr decodeCreateWalletResponse response)

/-- The request auth posts: credentials to endpoint/auth. -/
def auth_req (endpoint username password : String) : HttpReq :=
  HttpReq.postJsonAuth (endpoint ++ "/auth") (credsJson ⟨username, password⟩) none

/-- Get a auth tokens. -/
def auth (o : Oracle) (endpoint username password : String) :
    HttpReq × Except OpError Tokens :=
  (auth_req endpoint username password,
   match o (auth_req endpoint username password) with
   | none => Except.error OpError.transport
   | some response => serdeFromStr decodeTokens response)

/-- The authenticated GET create_invoice issues, with the converted amount
and the description as query parameters. -/
def create_invoice_req (endpoint description : String) (amount : ℕ) (token : String) : HttpReq :=
  HttpReq.get (endpoint ++ "/addinvoice?amount=" ++ amtStr amount ++ "&meta=" ++ description)
    (some token)

/-- Creates a lightning invoice. -/
def create_invoice (o : Oracle) (endpoint description : String) (amount : ℕ) (token : String) :
    HttpReq × Except OpError AddInvoiceResponse :=
  (create_invoice_req endpoint description amount token,
   match o (create_invoice_req endpoint description amount token) with
   | none => Except.error OpError.transport
   | some response => serdeFromStr decodeAddInvoiceResponse response)

/-- Decode a lightning invoice (bolt11): a pure function of the payment
request string, delegating to the BOLT11 parser; no transport oracle is
involved. -/
def decode_invoice (payment_request : String) : Except OpError Invoice :=
  match bolt11FromStr payment_request with
  | some invoice => Except.ok invoice
  | none => Except.error OpError.invalidInvoice

/-- The authenticated GET get_balance issues. -/
def get_balance_req (endpoint token : String) : HttpReq :=
  HttpReq.get (endpoint ++ "/balance") (some token)

/-- Get user lightning balance: the accounts map is flattened to the list
of its values. -/
def get_balance (o : Oracle) (endpoint token : String) :
    HttpReq × Except OpError (List Account) :=
  (get_balance_req endpoint token,
   match o (get_balance_req endpoint token) with
   | none => Except.error OpError.transport
   | some response =>
     match serdeFromStr decodeBalancesResponse response with
     | Except.error e => Except.error e
     | Except.ok balance => Except.ok (balance.accounts.map Prod.snd))

/-- The authenticated POST pay_invoice issues. -/
def pay_invoice_req (endpoint payment_request token : String) : HttpReq :=
  HttpReq.postJsonAuth (endpoint ++ "/payinvoice") (payInvoiceRequestJson ⟨payment_request⟩)
    (some token)

/-- Pay a lightning invoice. -/
def pay_invoice (o : Oracle) (endpoint payment_request token : String) :
    HttpReq × Except OpError PayInvoiceResponse :=
  (pay_invoice_req endpoint payment_request token,
   match o (pay_invoice_req endpoint payment_request token) with
   | none => Except.error OpError.transport
   | some response => serdeFromStr decodePayInvoiceResponse response)

/-- The authenticated GET get_txs issues. -/
def get_txs_req (endpoint token : String) : HttpReq :=
  HttpReq.get (endpoint ++ "/gettxs") (some token)

/-- Get successful lightning transactions user made. -/
def get_txs (o : Oracle) (endpoint token : String) :
    HttpReq × Except OpError (List Transaction) :=
  (get_txs_req endpoint token,
   match o (get_txs_req endpoint token) with
   | none => Except.error OpError.transport
   | some response => serdeFromStr decodeTxList response)

/-! Helper lemmas about field lookup in object bodies. -/

theorem lookupField_eq_none_of_notmem (fs : List (String × Json)) (n : String)
    (h : n ∉ fs.map Prod.fst) : lookupField fs n = none := by
  induction fs with
  | nil => rfl
  | cons p ps ih =>
    simp only [List.map_cons, List.mem_cons] at h
    push_neg at h
    simp only [lookupField]
    rw [if_neg (fun he => h.1 he.symm)]
    exact ih h.2

theorem lookupField_append (fs extra : List (String × Json)) (n : String)
    (h : lookupField extra n = none) :
    lookupField (fs ++ extra) n = lookupField fs n := by
  induction fs with
  | nil => simpa using h
  | cons p ps ih =>
    simp only [List.cons_append, lookupField]
    split
    · rfl
    · exact ih

theorem countName_append (fs extra : List (String × Json)) (n : String) :
    countName (fs ++ extra) n = countName fs n + countName extra n := by
  simp [countName, List.filter_append]

theorem lookup_none_of_disjoint (extra : List (String × Json)) (known : List String)
    (hd : ∀ p ∈ extra, p.1 ∉ known) (n : String) (hn : n ∈ known) :
    lookupField extra n = none := by
  apply lookupField_eq_none_of_notmem
  intro hmem
  rcases List.mem_map.mp hmem with ⟨p, hp, hpn⟩
  exact hd p hp (hpn ▸ hn)

theorem count_zero_of_disjoint (extra : List (String × Json)) (known : List String)
    (hd : ∀ p ∈ extra, p.1 ∉ known) (n : String) (hn : n ∈ known) :
    countName extra n = 0 := by
  simp only [countName, List.length_eq_zero, List.filter_eq_nil_iff]
  intro p hp
  simp only [beq_iff_eq]
  intro hpn
  exact hd p hp (hpn ▸ hn)

theorem dupKnown_append (known : List String) (fs extra : List (String × Json))
    (h : ∀ n ∈ known, countName extra n = 0) :
    dupKnown known (fs ++ extra) = dupKnown known fs := by
  induction known with
  | nil => rfl
  | cons m ms ih =>
    simp only [dupKnown, List.any_cons] at *
    rw [countName_append, h m (List.mem_cons_self m ms), Nat.add_zero,
      ih (fun n hn => h n (List.mem_cons_of_mem m hn))]

/-! Stability of the field getters under appended unknown fields. -/

theorem getStr_append (fs extra : List (String × Json)) (n : String)
    (h : lookupField extra n = none) : getStr (fs ++ extra) n = getStr fs n := by
  simp [getStr, lookupField_append fs extra n h]

theorem getU32_append (fs extra : List (String × Json)) (n : String)
    (h : lookupField extra n = none) : getU32 (fs ++ extra) n = getU32 fs n := by
  simp [getU32, lookupField_append fs extra n h]

theorem getU64_append (fs extra : List (String × Json)) (n : String)
    (h : lookupField extra n = none) : getU64 (fs ++ extra) n = getU64 fs n := by
  simp [getU64, lookupField_append fs extra n h]

theorem getBool_append (fs extra : List (String × Json)) (n : String)
    (h : lookupField extra n = none) : getBool (fs ++ extra) n = getBool fs n := by
  simp [getBool, lookupField_append fs extra n h]

theorem getOptStr_append (fs extra : List (String × Json)) (n : String)
    (h : lookupField extra n = none) : getOptStr (fs ++ extra) n = getOptStr fs n := by
  simp [getOptStr, lookupField_append fs extra n h]

theorem getMoney_append (fs extra : List (String × Json)) (n : String)
    (h : lookupField extra n = none) : getMoney (fs ++ extra) n = getMoney fs n := by
  simp [getMoney, lookupField_append fs extra n h]

theorem getOptMoney_append (fs extra : List (String × Json)) (n : String)
    (h : lookupField extra n = none) : getOptMoney (fs ++ extra) n = getOptMoney fs n := by
  simp [getOptMoney, lookupField_append fs extra n h]

/-! Stability of each response decoder under appended unknown fields. -/

theorem decodeTokens_ignores_extra (fs extra : List (String × Json))
    (hd : ∀ p ∈ extra, p.1 ∉ tokensFields) :
    decodeTokens (Json.obj (fs ++ extra)) = decodeTokens (Json.obj fs) := by
  have hl := lookup_none_of_disjoint extra tokensFields hd
  have hdup := dupKnown_append tokensFields fs extra
    (count_zero_of_disjoint extra tokensFields hd)
  simp only [decodeTokens, hdup,
    getStr_append fs extra "refresh" (hl "refresh" (by decide)),
    getStr_append fs extra "token" (hl "token" (by decide))]

theorem decodeCreateWallet_ignores_extra (fs extra : List (String × Json))
    (hd : ∀ p ∈ extra, p.1 ∉ createWalletFields) :
    decodeCreateWalletResponse (Json.obj (fs ++ extra)) =
      decodeCreateWalletResponse (Json.obj fs) := by
  have hl := lookup_none_of_disjoint extra createWalletFields hd
  have hc := count_zero_of_disjoint extra createWalletFields hd
  have hdu : dupKnown ["username"] (fs ++ extra) = dupKnown ["username"] fs :=
    dupKnown_append ["username"] fs extra
      (by intro n hn; simp only [List.mem_singleton] at hn; subst hn; exact hc "username" (by decide))
  have hde : dupKnown ["error"] (fs ++ extra) = dupKnown ["error"] fs :=
    dupKnown_append ["error"] fs extra
      (by intro n hn; simp only [List.mem_singleton] at hn; subst hn; exact hc "error" (by decide))
  simp only [decodeCreateWalletResponse, decodeCWUsername, decodeCWError, hdu, hde,
    getStr_append fs extra "username" (hl "username" (by decide)),
    getStr_append fs extra "error" (hl "error" (by decide))]

theorem decodeAddInvoice_ignores_extra (fs extra : List (String × Json))
    (hd : ∀ p ∈ extra, p.1 ∉ addInvoiceFields) :
    decodeAddInvoiceResponse (Json.obj (fs ++ extra)) =
      decodeAddInvoiceResponse (Json.obj fs) := by
  have hl := lookup_none_of_disjoint extra addInvoiceFields hd
  have hdup := dupKnown_append addInvoiceFields fs extra
    (count_zero_of_disjoint extra addInvoiceFields hd)
  simp only [decodeAddInvoiceResponse, hdup,
    getStr_append fs extra "req_id" (hl "req_id" (by decide)),
    getU32_append fs extra "uid" (hl "uid" (by decide)),
    getMoney_append fs extra "amount" (hl "amount" (by decide)),
    getStr_append fs extra "currency" (hl "currency" (by decide)),
    getOptStr_append fs extra "payment_request" (hl "payment_request" (by decide)),
    getOptStr_append fs extra "meta" (hl "meta" (by decide)),
    getOptStr_append fs extra "metadata" (hl "metadata" (by decide)),
    getOptStr_append fs extra "rate" (hl "rate" (by decide)),
    getOptStr_append fs extra "target_account_currency" (hl "target_account_currency" (by decide)),
    getOptStr_append fs extra "account_id" (hl "account_id" (by decide)),
    getOptStr_append fs extra "error" (hl "error" (by decide)),
    getOptStr_append fs extra "fees" (hl "fees" (by decide))]

theorem decodeBalances_ignores_extra (fs extra : List (String × Json))
    (hd : ∀ p ∈ extra, p.1 ∉ balancesFields) :
    decodeBalancesResponse (Json.obj (fs ++ extra)) =
      decodeBalancesResponse (Json.obj fs) := by
  have hl := lookup_none_of_disjoint extra balancesFields hd
  have hdup := dupKnown_append balancesFields fs extra
    (count_zero_of_disjoint extra balancesFields hd)
  simp only [decodeBalancesResponse, hdup,
    getU32_append fs extra "uid" (hl "uid" (by decide)),
    lookupField_append fs extra "accounts" (hl "accounts" (by decide)),
    getOptStr_append fs extra "error" (hl "error" (by decide))]

theorem decodePayInvoice_ignores_extra (fs extra : List (String × Json))
    (hd : ∀ p ∈ extra, p.1 ∉ payInvoiceFields) :
    decodePayInvoiceResponse (Json.obj (fs ++ extra)) =
      decodePayInvoiceResponse (Json.obj fs) := by
  have hl := lookup_none_of_disjoint extra payInvoiceFields hd
  have hdup := dupKnown_append payInvoiceFields fs extra
    (count_zero_of_disjoint extra payInvoiceFields hd)
  simp only [decodePayInvoiceResponse, hdup,
    getStr_append fs extra "payment_hash" (hl "payment_hash" (by decide)),
    getU32_append fs extra "uid" (hl "uid" (by decide)),
    getBool_append fs extra "success" (hl "success" (by decide)),
    getStr_append fs extra "currency" (hl "currency" (by decide)),
    getOptStr_append fs extra "payment_request" (hl "payment_request" (by decide)),
    getOptMoney_append fs extra "amount" (hl "amount" (by decide)),
    getOptMoney_append fs extra "fees" (hl "fees" (by decide)),
    getOptStr_append fs extra "error" (hl "error" (by decide)),
    getOptStr_append fs extra "payment_preimage" (hl "payment_preimage" (by decide)),
    getOptStr_append fs extra "destination" (hl "destination" (by decide)),
    getOptStr_append fs extra "description" (hl "description" (by decide))]

theorem decodeTransaction_ignores_extra (fs extra : List (String × Json))
    (hd : ∀ p ∈ extra, p.1 ∉ transactionFields) :
    decodeTransaction (Json.obj (fs ++ extra)) = decodeTransaction (Json.obj fs) := by
  have hl := lookup_none_of_disjoint extra transactionFields hd
  have hdup := dupKnown_append transactionFields fs extra
    (count_zero_of_disjoint extra transactionFields hd)
  simp only [decodeTransaction, hdup,
    getStr_append fs extra "txid" (hl "txid" (by decide)),
    getU64_append fs extra "created_at" (hl "created_at" (by decide)),
    getU32_append fs extra "outbound_uid" (hl "outbound_uid" (by decide)),
    getU32_append fs extra "inbound_uid" (hl "inbound_uid" (by decide)),
    getOptStr_append fs extra "fee_txid" (hl "fee_txid" (by decide)),
    getOptStr_append fs extra "outbound_txid" (hl "outbound_txid" (by decide)),
    getOptStr_append fs extra "inbound_txid" (hl "inbound_txid" (by decide)),
    getStr_append fs extra "outbound_amount" (hl "outbound_amount" (by decide)),
    getStr_append fs extra "inbound_amount" (hl "inbound_amount" (by decide)),
    getStr_append fs extra "outbound_account_id" (hl "outbound_account_id" (by decide)),
    getStr_append fs extra "inbound_account_id" (hl "inbound_account_id" (by decide)),
    getStr_append fs extra "outbound_currency" (hl "outbound_currency" (by decide)),
    getStr_append fs extra "inbound_currency" (hl "inbound_currency" (by decide)),
    getStr_append fs extra "exchange_rate" (hl "exchange_rate" (by decide)),
    getStr_append fs extra "tx_type" (hl "tx_type" (by decide)),
    getStr_append fs extra "fees" (hl "fees" (by decide)),
    getOptStr_append fs extra "reference" (hl "reference" (by decide))]

/-! Claim theorems. -/

/-- C1: create_invoice converts the satoshi amount to a BTC decimal string
by dividing by 100,000,000 (as f32).  With amount 100000000 the encoded
string is exactly "1", and the issued request embeds amount=1; with amount 1
the encoded decimal string, multiplied back by 100,000,000, equals exactly 1
(its value is the fraction 1 / 100000000). -/
theorem c1_create_invoice_amount_conversion :
    amtStr 100000000 = "1" ∧
    (∀ o : Oracle, (create_invoice o "E" "D" 100000000 "T").1 =
      HttpReq.get "E/addinvoice?amount=1&meta=D" (some "T")) ∧
    (∃ f : Frac, decStrToFrac (amtStr 1) = some f ∧
      f.num * 100000000 = f.den ∧ 0 < f.den) :=
  ⟨by decide, fun _ => rfl,
    ⟨⟨1, 100000000⟩, by decide, by decide, by decide⟩⟩

/-- C2 counterexample: on a create-wallet body carrying both the "username"
and the "error" field the decoder does not fail with a decode error — serde's
untagged decoding ignores fields unknown to a variant, so the first variant
matches and create_wallet returns the Created (Username) value. -/
theorem c2_counterexample_both_fields :
    (create_wallet
        (fun _ => some "\x7b\"username\":\"alice\",\"error\":\"exists\"\x7d") "" "" "").2 =
      Except.ok (CreateWalletResponse.Username "alice") := rfl

/-- C2 (amended): the create-wallet decoder yields the Created (Username)
variant on a username body, the Failed (Error) variant on an error body, and
fails with a decode error on an empty object; on a body containing both
discriminating fields it does not fail but selects the first declared
variant, Created, because untagged struct variants ignore unknown fields. -/
theorem c2_create_wallet_decoder_variants : ∀ e u p : String,
    (create_wallet (fun _ => some "\x7b\"username\":\"alice\"\x7d") e u p).2 =
      Except.ok (CreateWalletResponse.Username "alice") ∧
    (create_wallet (fun _ => some "\x7b\"error\":\"exists\"\x7d") e u p).2 =
      Except.ok (CreateWalletResponse.Error "exists") ∧
    (create_wallet (fun _ => some "\x7b\x7d") e u p).2 =
      Except.error OpError.decode ∧
    (create_wallet
        (fun _ => some "\x7b\"username\":\"alice\",\"error\":\"exists\"\x7d") e u p).2 =
      Except.ok (CreateWalletResponse.Username "alice") :=
  fun _ _ _ => ⟨rfl, rfl, rfl, rfl⟩

/-- C3 counterexample: auth happily returns a token pair whose token string
is empty — the body with empty refresh and token strings decodes into the
expected shape and no non-emptiness validation is performed. -/
theorem c3_counterexample_empty_token :
    (auth (fun _ => some "\x7b\"refresh\":\"\",\"token\":\"\"\x7d") "" "" "").2 =
      Except.ok (Tokens.mk "" "") ∧
    (Tokens.mk "" "").token = "" :=
  ⟨rfl, rfl⟩

/-- C3 (amended): for every username/password, auth either fails with a
transport or decode error or returns the token pair exactly as decoded from
the response body — the strings are taken verbatim and may be empty, since
no emptiness validation is performed. -/
theorem c3_auth_returns_decoded_pair (o : Oracle) (e u p body : String) (t : Tokens)
    (h1 : o (auth_req e u p) = some body)
    (h2 : serdeFromStr decodeTokens body = Except.ok t) :
    (auth o e u p).2 = Except.ok t := by
  simp [auth, h1, h2]

/-- Witness for C3 (amended), at the empty-token body: the hypothesis holds
and auth returns the pair with both strings empty. -/
theorem c3_auth_returns_decoded_pair_witness :
    (auth (fun _ => some "\x7b\"refresh\":\"\",\"token\":\"\"\x7d") "" "" "").2 =
      Except.ok (Tokens.mk "" "") :=
  c3_auth_returns_decoded_pair _ "" "" "" "\x7b\"refresh\":\"\",\"token\":\"\"\x7d"
    (Tokens.mk "" "") rfl rfl

/-- C4 counterexample: a well-formed add-invoice body with neither a
payment_request nor an error field is not surfaced as an error —
create_invoice returns it as a plain success whose payment_request and error
fields are both none. -/
theorem c4_counterexample_incomplete_response_accepted :
    (create_invoice
        (fun _ => some ("\x7b\"req_id\":\"r\",\"uid\":1,\"amount\":" ++
          "\x7b\"value\":\"0\",\"currency\":\"BTC\"\x7d,\"currency\":\"BTC\"\x7d"))
        "" "" 21 "").2 =
      Except.ok (AddInvoiceResponse.mk "r" 1 none none none (Money.mk "0" "BTC")
        none "BTC" none none none none) ∧
    (AddInvoiceResponse.mk "r" 1 none none none (Money.mk "0" "BTC")
        none "BTC" none none none none).payment_request = none ∧
    (AddInvoiceResponse.mk "r" 1 none none none (Money.mk "0" "BTC")
        none "BTC" none none none none).error = none :=
  ⟨rfl, rfl, rfl⟩

/-- C4 (amended): create_invoice performs no incompleteness check — whenever
the response body decodes into the expected shape, the decoded value is
returned as a plain success exactly as decoded, also when payment_request
and error are both absent; detecting that condition is left to the caller. -/
theorem c4_create_invoice_returns_decoded (o : Oracle) (e d : String) (a : ℕ)
    (t body : String) (r : AddInvoiceResponse)
    (h1 : o (create_invoice_req e d a t) = some body)
    (h2 : serdeFromStr decodeAddInvoiceResponse body = Except.ok r) :
    (create_invoice o e d a t).2 = Except.ok r := by
  simp [create_invoice, h1, h2]

/-- Witness for C4 (amended), at a body with neither payment_request nor
error: both hypotheses hold by evaluation and the response comes back as a
plain success with both fields none. -/
theorem c4_create_invoice_returns_decoded_witness :
    (create_invoice
        (fun _ => some ("\x7b\"req_id\":\"r\",\"uid\":1,\"amount\":" ++
          "\x7b\"value\":\"0\",\"currency\":\"BTC\"\x7d,\"currency\":\"BTC\"\x7d"))
        "" "" 100 "").2 =
      Except.ok (AddInvoiceResponse.mk "r" 1 none none none (Money.mk "0" "BTC")
        none "BTC" none none none none) :=
  c4_create_invoice_returns_decoded _ "" "" 100 ""
    ("\x7b\"req_id\":\"r\",\"uid\":1,\"amount\":" ++
      "\x7b\"value\":\"0\",\"currency\":\"BTC\"\x7d,\"currency\":\"BTC\"\x7d")
    (AddInvoiceResponse.mk "r" 1 none none none (Money.mk "0" "BTC")
      none "BTC" none none none none) rfl rfl

/-- C5 counterexample: a well-formed pay-invoice body with success true and
no preimage field is not flagged — pay_invoice returns it untouched as a
successful PayInvoiceResponse whose success field is true and whose
payment_preimage is none. -/
theorem c5_counterexample_success_without_preimage :
    (pay_invoice
        (fun _ => some "\x7b\"payment_hash\":\"h\",\"uid\":1,\"success\":true,\"currency\":\"BTC\"\x7d")
        "" "" "").2 =
      Except.ok (PayInvoiceResponse.mk "h" 1 true "BTC" none none none none none none none) ∧
    (PayInvoiceResponse.mk "h" 1 true "BTC" none none none none none none none).success = true ∧
    (PayInvoiceResponse.mk "h" 1 true "BTC" none none none none none none none).payment_preimage
      = none :=
  ⟨rfl, rfl, rfl⟩

/-- C5 (amended): pay_invoice performs no consistency validation — whenever
the response body decodes into the expected shape, the decoded value is
returned exactly as decoded, also when success is true and the preimage is
absent; the caller must detect the inconsistency. -/
theorem c5_pay_invoice_returns_decoded (o : Oracle) (e pr t body : String)
    (r : PayInvoiceResponse)
    (h1 : o (pay_invoice_req e pr t) = some body)
    (h2 : serdeFromStr decodePayInvoiceResponse body = Except.ok r) :
    (pay_invoice o e pr t).2 = Except.ok r := by
  simp [pay_invoice, h1, h2]

/-- Witness for C5 (amended), at a success-true body with no preimage. -/
theorem c5_pay_invoice_returns_decoded_witness :
    (pay_invoice
        (fun _ => some "\x7b\"payment_hash\":\"h\",\"uid\":1,\"success\":true,\"currency\":\"BTC\"\x7d")
        "" "" "").2 =
      Except.ok (PayInvoiceResponse.mk "h" 1 true "BTC" none none none none none none none) :=
  c5_pay_invoice_returns_decoded _ "" "" ""
    "\x7b\"payment_hash\":\"h\",\"uid\":1,\"success\":true,\"currency\":\"BTC\"\x7d"
    (PayInvoiceResponse.mk "h" 1 true "BTC" none none none none none none none) rfl rfl

/-- C6: get_balance parses the accounts map of the balances response and
returns exactly its values as a list (no order guarantee beyond the body's);
in particular, on the body with the single account "a" it returns the
one-element list containing that account. -/
theorem c6_get_balance_flattens_accounts :
    (∀ (o : Oracle) (e t body : String) (b : BalancesResponse),
      o (get_balance_req e t) = some body →
      serdeFromStr decodeBalancesResponse body = Except.ok b →
      (get_balance o e t).2 = Except.ok (b.accounts.map Prod.snd)) ∧
    (∀ e t : String,
      (get_balance
          (fun _ => some ("\x7b\"uid\":1,\"accounts\":\x7b\"a\":\x7b\"account_id\":\"a\"," ++
            "\"balance\":\"100\",\"currency\":\"BTC\"\x7d\x7d\x7d"))
          e t).2 =
        Except.ok [Account.mk "a" "100" "BTC"]) := by
  constructor
  · intro o e t body b h1 h2
    simp [get_balance, h1, h2]
  · intro e t
    rfl

/-- Witness for C6, applying the universal part at the concrete body. -/
theorem c6_get_balance_flattens_accounts_witness :
    (get_balance
        (fun _ => some ("\x7b\"uid\":1,\"accounts\":\x7b\"a\":\x7b\"account_id\":\"a\"," ++
          "\"balance\":\"100\",\"currency\":\"BTC\"\x7d\x7d\x7d"))
        "" "").2 =
      Except.ok [Account.mk "a" "100" "BTC"] :=
  c6_get_balance_flattens_accounts.1 _ "" ""
    ("\x7b\"uid\":1,\"accounts\":\x7b\"a\":\x7b\"account_id\":\"a\"," ++
      "\"balance\":\"100\",\"currency\":\"BTC\"\x7d\x7d\x7d")
    (BalancesResponse.mk 1 [("a", Account.mk "a" "100" "BTC")] none) rfl rfl

/-- C7: decode_invoice is a pure function of the payment-request string (it
takes no transport oracle and issues no request); it fails with the
invalid-invoice error exactly when the BOLT11 parse fails — in particular on
"not-an-invoice" — and returns the decoded invoice whenever the parse
succeeds. -/
theorem c7_decode_invoice_pure_parse :
    decode_invoice "not-an-invoice" = Except.error OpError.invalidInvoice ∧
    (∀ s : String, bolt11FromStr s = none →
      decode_invoice s = Except.error OpError.invalidInvoice) ∧
    (∀ (s : String) (i : Invoice), bolt11FromStr s = some i →
      decode_invoice s = Except.ok i) := by
  refine ⟨rfl, ?_, ?_⟩
  · intro s h
    simp [decode_invoice, h]
  · intro s i h
    simp [decode_invoice, h]

/-- Witness for C7, at a syntactically invalid string and at a valid bech32
BOLT11 string. -/
theorem c7_decode_invoice_pure_parse_witness :
    decode_invoice "xyz" = Except.error OpError.invalidInvoice ∧
    decode_invoice "lnbc1qqqsyqcyq5rqwzqfpqdlz8r0q" =
      Except.ok (Invoice.mk "lnbc" [0, 0, 0, 16, 4, 0, 24, 4, 0, 20, 3, 0, 14, 2, 0, 9, 1, 0, 13]) :=
  ⟨c7_decode_invoice_pure_parse.2.1 "xyz" rfl,
   c7_decode_invoice_pure_parse.2.2 "lnbc1qqqsyqcyq5rqwzqfpqdlz8r0q"
     (Invoice.mk "lnbc" [0, 0, 0, 16, 4, 0, 24, 4, 0, 20, 3, 0, 14, 2, 0, 9, 1, 0, 13]) rfl⟩

/-- If any of the four required fields fails to extract, the pay-invoice
decoder rejects the body. -/
theorem decodePayInvoice_none_of_required_none (fs : List (String × Json))
    (h : getStr fs "payment_hash" = none ∨ getU32 fs "uid" = none ∨
      getBool fs "success" = none ∨ getStr fs "currency" = none) :
    decodePayInvoiceResponse (Json.obj fs) = none := by
  simp only [decodePayInvoiceResponse]
  split
  · rfl
  · rcases h with h | h | h | h <;> rw [h] <;> split <;> simp_all

/-- C8: no error is caught and suppressed.  For every operation, a transport
failure surfaces as the transport error, and after a successful transport
the operation's value is exactly the serde decode of the body (for
get_balance, its image under the map-to-list flattening), so decode failures
propagate and no defaulted success is ever produced; in particular get_txs
fails with a decode error on the malformed body "not json". -/
theorem c8_no_error_suppression :
    (∀ (o : Oracle) (e u p : String), o (create_wallet_req e u p) = none →
      (create_wallet o e u p).2 = Except.error OpError.transport) ∧
    (∀ (o : Oracle) (e u p body : String), o (create_wallet_req e u p) = some body →
      (create_wallet o e u p).2 = serdeFromStr decodeCreateWalletResponse body) ∧
    (∀ (o : Oracle) (e u p : String), o (auth_req e u p) = none →
      (auth o e u p).2 = Except.error OpError.transport) ∧
    (∀ (o : Oracle) (e u p body : String), o (auth_req e u p) = some body →
      (auth o e u p).2 = serdeFromStr decodeTokens body) ∧
    (∀ (o : Oracle) (e d : String) (a : ℕ) (t : String),
      o (create_invoice_req e d a t) = none →
      (create_invoice o e d a t).2 = Except.error OpError.transport) ∧
    (∀ (o : Oracle) (e d : String) (a : ℕ) (t body : String),
      o (create_invoice_req e d a t) = some body →
      (create_invoice o e d a t).2 = serdeFromStr decodeAddInvoiceResponse body) ∧
    (∀ (o : Oracle) (e t : String), o (get_balance_req e t) = none →
      (get_balance o e t).2 = Except.error OpError.transport) ∧
    (∀ (o : Oracle) (e t body : String), o (get_balance_req e t) = some body →
      (get_balance o e t).2 =
        (serdeFromStr decodeBalancesResponse body).map (fun b => b.accounts.map Prod.snd)) ∧
    (∀ (o : Oracle) (e pr t : String), o (pay_invoice_req e pr t) = none →
      (pay_invoice o e pr t).2 = Except.error OpError.transport) ∧
    (∀ (o : Oracle) (e pr t body : String), o (pay_invoice_req e pr t) = some body →
      (pay_invoice o e pr t).2 = serdeFromStr decodePayInvoiceResponse body) ∧
    (∀ (o : Oracle) (e t : String), o (get_txs_req e t) = none →
      (get_txs o e t).2 = Except.error OpError.transport) ∧
    (∀ (o : Oracle) (e t body : String), o (get_txs_req e t) = some body →
      (get_txs o e t).2 = serdeFromStr decodeTxList body) ∧
    (∀ (o : Oracle) (e t : String), o (get_txs_req e t) = some "not json" →
      (get_txs o e t).2 = Except.error OpError.decode) := by
  refine ⟨?_, ?_, ?_, ?_, ?_, ?_, ?_, ?_, ?_, ?_, ?_, ?_, ?_⟩
  · intro o e u p h
    simp [create_wallet, h]
  · intro o e u p body h
    simp [create_wallet, h]
  · intro o e u p h
    simp [auth, h]
  · intro o e u p body h
    simp [auth, h]
  · intro o e d a t h
    simp [create_invoice, h]
  · intro o e d a t body h
    simp [create_invoice, h]
  · intro o e t h
    simp [get_balance, h]
  · intro o e t body h
    simp only [get_balance, h]
    rcases hres : serdeFromStr decodeBalancesResponse body with err | b <;>
      simp [hres, Except.map]
  · intro o e pr t h
    simp [pay_invoice, h]
  · intro o e pr t body h
    simp [pay_invoice, h]
  · intro o e t h
    simp [get_txs, h]
  · intro o e t body h
    simp [get_txs, h]
  · intro o e t h
    simp [get_txs, h]
    rfl

/-- Witness for C8: every conjunct applied at a concrete oracle, endpoint
and body, with all hypotheses discharged by evaluation. -/
theorem c8_no_error_suppression_witness :
    (create_wallet (fun _ => none) "" "" "").2 = Except.error OpError.transport ∧
    (create_wallet (fun _ => some "nope") "" "" "").2 =
      serdeFromStr decodeCreateWalletResponse "nope" ∧
    (auth (fun _ => none) "" "" "").2 = Except.error OpError.transport ∧
    (auth (fun _ => some "nope") "" "" "").2 = serdeFromStr decodeTokens "nope" ∧
    (create_invoice (fun _ => none) "" "" 7 "").2 = Except.error OpError.transport ∧
    (create_invoice (fun _ => some "nope") "" "" 7 "").2 =
      serdeFromStr decodeAddInvoiceResponse "nope" ∧
    (get_balance (fun _ => none) "" "").2 = Except.error OpError.transport ∧
    (get_balance (fun _ => some "nope") "" "").2 =
      (serdeFromStr decodeBalancesResponse "nope").map (fun b => b.accounts.map Prod.snd) ∧
    (pay_invoice (fun _ => none) "" "" "").2 = Except.error OpError.transport ∧
    (pay_invoice (fun _ => some "nope") "" "" "").2 =
      serdeFromStr decodePayInvoiceResponse "nope" ∧
    (get_txs (fun _ => none) "" "").2 = Except.error OpError.transport ∧
    (get_txs (fun _ => some "nope") "" "").2 = serdeFromStr decodeTxList "nope" ∧
    (get_txs (fun _ => some "not json") "" "").2 = Except.error OpError.decode := by
  obtain ⟨h1, h2, h3, h4, h5, h6, h7, h8, h9, h10, h11, h12, h13⟩ := c8_no_error_suppression
  exact ⟨h1 _ "" "" "" rfl, h2 _ "" "" "" "nope" rfl, h3 _ "" "" "" rfl,
    h4 _ "" "" "" "nope" rfl, h5 _ "" "" 7 "" rfl, h6 _ "" "" 7 "" "nope" rfl,
    h7 _ "" "" rfl, h8 _ "" "" "nope" rfl, h9 _ "" "" "" rfl,
    h10 _ "" "" "" "nope" rfl, h11 _ "" "" rfl, h12 _ "" "" "nope" rfl,
    h13 _ "" "" rfl⟩

/-- C9: every response decoder of the module ignores unknown extra fields:
appending fields whose names are not among the type's field names never
changes the decoding result, so a body of the expected shape plus extras
still decodes successfully to the same value. -/
theorem c9_decoders_ignore_unknown_fields :
    (∀ fs extra : List (String × Json), (∀ p ∈ extra, p.1 ∉ createWalletFields) →
      decodeCreateWalletResponse (Json.obj (fs ++ extra)) =
        decodeCreateWalletResponse (Json.obj fs)) ∧
    (∀ fs extra : List (String × Json), (∀ p ∈ extra, p.1 ∉ tokensFields) →
      decodeTokens (Json.obj (fs ++ extra)) = decodeTokens (Json.obj fs)) ∧
    (∀ fs extra : List (String × Json), (∀ p ∈ extra, p.1 ∉ addInvoiceFields) →
      decodeAddInvoiceResponse (Json.obj (fs ++ extra)) =
        decodeAddInvoiceResponse (Json.obj fs)) ∧
    (∀ fs extra : List (String × Json), (∀ p ∈ extra, p.1 ∉ balancesFields) →
      decodeBalancesResponse (Json.obj (fs ++ extra)) =
        decodeBalancesResponse (Json.obj fs)) ∧
    (∀ fs extra : List (String × Json), (∀ p ∈ extra, p.1 ∉ payInvoiceFields) →
      decodePayInvoiceResponse (Json.obj (fs ++ extra)) =
        decodePayInvoiceResponse (Json.obj fs)) ∧
    (∀ fs extra : List (String × Json), (∀ p ∈ extra, p.1 ∉ transactionFields) →
      decodeTransaction (Json.obj (fs ++ extra)) = decodeTransaction (Json.obj fs)) :=
  ⟨decodeCreateWallet_ignores_extra, decodeTokens_ignores_extra,
    decodeAddInvoice_ignores_extra, decodeBalances_ignores_extra,
    decodePayInvoice_ignores_extra, decodeTransaction_ignores_extra⟩

/-- Witness for C9: each decoder applied to a concrete base body extended
with a concrete unknown field, the disjointness hypothesis discharged by
evaluation; together with the base decodings this shows the extended bodies
still decode to the same values. -/
theorem c9_decoders_ignore_unknown_fields_witness :
    (decodeCreateWalletResponse
        (Json.obj ([("username", Json.str "alice")] ++ [("zzz", Json.num 7)])) =
      decodeCreateWalletResponse (Json.obj [("username", Json.str "alice")]) ∧
      decodeCreateWalletResponse (Json.obj [("username", Json.str "alice")]) =
        some (CreateWalletResponse.Username "alice")) ∧
    (decodeTokens
        (Json.obj ([("refresh", Json.str "r"), ("token", Json.str "t")] ++
          [("zzz", Json.num 7)])) =
      decodeTokens (Json.obj [("refresh", Json.str "r"), ("token", Json.str "t")]) ∧
      decodeTokens (Json.obj [("refresh", Json.str "r"), ("token", Json.str "t")]) =
        some (Tokens.mk "r" "t")) ∧
    decodeAddInvoiceResponse
        (Json.obj ([("req_id", Json.str "r"), ("uid", Json.num 1),
          ("amount", Json.obj [("value", Json.str "0"), ("currency", Json.str "BTC")]),
          ("currency", Json.str "BTC")] ++ [("zzz", Json.num 7)])) =
      decodeAddInvoiceResponse
        (Json.obj [("req_id", Json.str "r"), ("uid", Json.num 1),
          ("amount", Json.obj [("value", Json.str "0"), ("currency", Json.str "BTC")]),
          ("currency", Json.str "BTC")]) ∧
    decodeBalancesResponse
        (Json.obj ([("uid", Json.num 1), ("accounts", Json.obj [])] ++
          [("zzz", Json.num 7)])) =
      decodeBalancesResponse (Json.obj [("uid", Json.num 1), ("accounts", Json.obj [])]) ∧
    decodePayInvoiceResponse
        (Json.obj ([("payment_hash", Json.str "h"), ("uid", Json.num 1),
          ("success", Json.bool true), ("currency", Json.str "BTC")] ++
          [("zzz", Json.num 7)])) =
      decodePayInvoiceResponse
        (Json.obj [("payment_hash", Json.str "h"), ("uid", Json.num 1),
          ("success", Json.bool true), ("currency", Json.str "BTC")]) ∧
    decodeTransaction
        (Json.obj ([("txid", Json.str "x"), ("created_at", Json.num 5),
          ("outbound_uid", Json.num 1), ("inbound_uid", Json.num 2),
          ("outbound_amount", Json.str "1"), ("inbound_amount", Json.str "1"),
          ("outbound_account_id", Json.str "a"), ("inbound_account_id", Json.str "b"),
          ("outbound_currency", Json.str "BTC"), ("inbound_currency", Json.str "BTC"),
          ("exchange_rate", Json.str "1"), ("tx_type", Json.str "ln"),
          ("fees", Json.str "0")] ++ [("zzz", Json.num 7)])) =
      decodeTransaction
        (Json.obj [("txid", Json.str "x"), ("created_at", Json.num 5),
          ("outbound_uid", Json.num 1), ("inbound_uid", Json.num 2),
          ("outbound_amount", Json.str "1"), ("inbound_amount", Json.str "1"),
          ("outbound_account_id", Json.str "a"), ("inbound_account_id", Json.str "b"),
          ("outbound_currency", Json.str "BTC"), ("inbound_currency", Json.str "BTC"),
          ("exchange_rate", Json.str "1"), ("tx_type", Json.str "ln"),
          ("fees", Json.str "0")]) := by
  obtain ⟨h1, h2, h3, h4, h5, h6⟩ := c9_decoders_ignore_unknown_fields
  exact ⟨⟨h1 _ _ (by decide), rfl⟩, ⟨h2 _ _ (by decide), rfl⟩, h3 _ _ (by decide),
    h4 _ _ (by decide), h5 _ _ (by decide), h6 _ _ (by decide)⟩

/-- C10: pay_invoice returns a PaymentResult only when the body carries the
required fields payment_hash, uid, success and currency: a decoded result
implies all four names are present, a well-formed object body missing any of
them is rejected by the decoder, and the operation then fails with a decode
error — shown for a body lacking the success field entirely. -/
theorem c10_pay_invoice_required_fields :
    (∀ fs : List (String × Json),
      ("payment_hash" ∉ fs.map Prod.fst ∨ "uid" ∉ fs.map Prod.fst ∨
        "success" ∉ fs.map Prod.fst ∨ "currency" ∉ fs.map Prod.fst) →
      decodePayInvoiceResponse (Json.obj fs) = none) ∧
    (∀ (fs : List (String × Json)) (r : PayInvoiceResponse),
      decodePayInvoiceResponse (Json.obj fs) = some r →
      "payment_hash" ∈ fs.map Prod.fst ∧ "uid" ∈ fs.map Prod.fst ∧
        "success" ∈ fs.map Prod.fst ∧ "currency" ∈ fs.map Prod.fst) ∧
    (∀ (o : Oracle) (e pr t body : String) (fs : List (String × Json)),
      o (pay_invoice_req e pr t) = some body →
      parseJson body = some (Json.obj fs) →
      "success" ∉ fs.map Prod.fst →
      (pay_invoice o e pr t).2 = Except.error OpError.decode) := by
  have hmain : ∀ fs : List (String × Json),
      ("payment_hash" ∉ fs.map Prod.fst ∨ "uid" ∉ fs.map Prod.fst ∨
        "success" ∉ fs.map Prod.fst ∨ "currency" ∉ fs.map Prod.fst) →
      decodePayInvoiceResponse (Json.obj fs) = none := by
    intro fs h
    rcases h with h | h | h | h
    · exact decodePayInvoice_none_of_required_none fs
        (Or.inl (by simp [getStr, lookupField_eq_none_of_notmem fs _ h]))
    · exact decodePayInvoice_none_of_required_none fs
        (Or.inr (Or.inl (by simp [getU32, lookupField_eq_none_of_notmem fs _ h])))
    · exact decodePayInvoice_none_of_required_none fs
        (Or.inr (Or.inr (Or.inl (by simp [getBool, lookupField_eq_none_of_notmem fs _ h]))))
    · exact decodePayInvoice_none_of_required_none fs
        (Or.inr (Or.inr (Or.inr (by simp [getStr, lookupField_eq_none_of_notmem fs _ h]))))
  refine ⟨hmain, ?_, ?_⟩
  · intro fs r hok
    refine ⟨?_, ?_, ?_, ?_⟩
    · by_contra hmem
      rw [hmain fs (Or.inl hmem)] at hok
      exact Option.noConfusion hok
    · by_contra hmem
      rw [hmain fs (Or.inr (Or.inl hmem))] at hok
      exact Option.noConfusion hok
    · by_contra hmem
      rw [hmain fs (Or.inr (Or.inr (Or.inl hmem)))] at hok
      exact Option.noConfusion hok
    · by_contra hmem
      rw [hmain fs (Or.inr (Or.inr (Or.inr hmem)))] at hok
      exact Option.noConfusion hok
  · intro o e pr t body fs h1 h2 h3
    simp [pay_invoice, h1, serdeFromStr, h2,
      hmain fs (Or.inr (Or.inr (Or.inl h3)))]

/-- Witness for C10: a concrete body with payment_hash, uid and currency but
no success field is rejected by the decoder, and pay_invoice on that body
fails with a decode error. -/
theorem c10_pay_invoice_required_fields_witness :
    decodePayInvoiceResponse
        (Json.obj [("payment_hash", Json.str "h"), ("uid", Json.num 1),
          ("currency", Json.str "BTC")]) = none ∧
    (pay_invoice
        (fun _ => some "\x7b\"payment_hash\":\"h\",\"uid\":1,\"currency\":\"BTC\"\x7d")
        "" "" "").2 = Except.error OpError.decode :=
  ⟨c10_pay_invoice_required_fields.1 _ (Or.inr (Or.inr (Or.inl (by decide)))),
   c10_pay_invoice_required_fields.2.2 _ "" "" ""
     "\x7b\"payment_hash\":\"h\",\"uid\":1,\"currency\":\"BTC\"\x7d"
     [("payment_hash", Json.str "h"), ("uid", Json.num 1), ("currency", Json.str "BTC")]
     rfl rfl (by decide)⟩

end Lndhub
